import Mathlib

/-!
Verification of the WebSocket chat client helper
(`src/utils/websocketClient.ts`).

The module resolves a WebSocket endpoint URL from the execution context
(browser page location vs. server side), wires socket lifecycle events to
caller callbacks, sends the chat completion request as a single JSON
message on open, and offers a guarded close operation.

The shallow embedding below mirrors the source functions one for one:

* the ambient browser/server environment is made explicit: the optional
  `window.location` becomes an `Option WindowLocation` argument and the
  optional `process.env.SERVER_BASE_URL` value an `Option String` argument;
* the anchored regex replacements of `toWebSocketBaseUrl` become anchored
  literal-prefix replacements on the character list of the string;
* the event wiring of `createChatWebSocket` is modelled as the list of
  observable actions (sends, callback invocations, log lines) each socket
  event triggers, and `runEvents` replays a delivered event trace;
* `closeWebSocket` returns the list of transport actions it performs, so
  the no-op cases are the empty list.
-/

/-- The hardcoded fallback base URL (`DEFAULT_SERVER_BASE_URL`). -/
def DEFAULT_SERVER_BASE_URL : String := "http://localhost:8001"

/-- Embedding of `getServerBaseUrl`: reads `process.env.SERVER_BASE_URL`
(`none` when the process, env object or variable is absent) and falls back
to the default via JavaScript `||`, for which the empty string is falsy. -/
def getServerBaseUrl (serverBaseUrl : Option String) : String :=
  match serverBaseUrl with
  | some v => if v = "" then DEFAULT_SERVER_BASE_URL else v
  | none => DEFAULT_SERVER_BASE_URL

/-- Anchored prefix test on character lists, used to embed the anchored
regexes `/^https:/` and `/^http:/`. -/
def startsWithChars : List Char → List Char → Bool
  | [], _ => true
  | _ :: _, [] => false
  | p :: ps, c :: cs => p == c && startsWithChars ps cs

/-- Embedding of `baseUrl.replace(/^https:/, "wss:")`: one anchored
replacement of the literal prefix. -/
def replaceStartHttps (s : String) : String :=
  if startsWithChars "https:".data s.data then
    String.mk ("wss:".data ++ s.data.drop 6)
  else s

/-- Embedding of `.replace(/^http:/, "ws:")`: one anchored replacement of
the literal prefix. -/
def replaceStartHttp (s : String) : String :=
  if startsWithChars "http:".data s.data then
    String.mk ("ws:".data ++ s.data.drop 5)
  else s

/-- Embedding of `toWebSocketBaseUrl`: the two chained replacements. -/
def toWebSocketBaseUrl (baseUrl : String) : String :=
  replaceStartHttp (replaceStartHttps baseUrl)

/-- Embedding of `isLoopbackHost`. -/
def isLoopbackHost (hostname : String) : Bool :=
  hostname = "localhost" || hostname = "127.0.0.1" || hostname = "::1"

/-- The fields of `window.location` the resolver reads. -/
structure WindowLocation where
  protocol : String
  host : String
  hostname : String
deriving DecidableEq

/-- Embedding of `getWebSocketUrl`. The browser check
`typeof window !== "undefined"` becomes the `Option WindowLocation`
argument; `serverBaseUrl` is the `SERVER_BASE_URL` environment value. -/
def getWebSocketUrl (window : Option WindowLocation)
    (serverBaseUrl : Option String) : String :=
  match window with
  | some loc =>
    let protocol := if loc.protocol = "https:" then "wss:" else "ws:"
    let host := loc.host
    if isLoopbackHost loc.hostname then
      toWebSocketBaseUrl (getServerBaseUrl serverBaseUrl) ++ "/ws/chat"
    else
      ((protocol ++ "//") ++ host) ++ "/ws/chat"
  | none =>
    toWebSocketBaseUrl (getServerBaseUrl serverBaseUrl) ++ "/ws/chat"

/-- The role union of `ChatMessage`. -/
inductive Role where
  | user
  | assistant
  | system
deriving DecidableEq

/-- The serialized text of a role value. -/
def Role.text : Role → String
  | Role.user => "user"
  | Role.assistant => "assistant"
  | Role.system => "system"

/-- Embedding of the `ChatMessage` interface. -/
structure ChatMessage where
  role : Role
  content : String
deriving DecidableEq

/-- Embedding of the `ChatCompletionRequest` interface; optional fields are
`Option` and absent by default. -/
structure ChatCompletionRequest where
  repo_url : String
  messages : List ChatMessage
  filePath : Option String := none
  token : Option String := none
  type : Option String := none
  provider : Option String := none
  model : Option String := none
  language : Option String := none
  excluded_dirs : Option String := none
  excluded_files : Option String := none
deriving DecidableEq

/-- One hexadecimal digit, lower case, as emitted by `JSON.stringify` in
`\uXXXX` escapes. -/
def hexDigit (n : Nat) : Char :=
  if n < 10 then Char.ofNat (48 + n) else Char.ofNat (87 + n)

/-- Four-digit lower-case hexadecimal rendering of a code point. -/
def hex4 (n : Nat) : String :=
  String.mk [hexDigit (n / 4096 % 16), hexDigit (n / 256 % 16),
             hexDigit (n / 16 % 16), hexDigit (n % 16)]

/-- JSON string escaping of one character, as `JSON.stringify` performs it
on well-formed text: quote, backslash, the named control escapes, and
`\uXXXX` for the remaining control characters. -/
def jsonEscapeChar (c : Char) : String :=
  if c = '"' then "\\\""
  else if c = '\\' then "\\\\"
  else if c = '\x08' then "\\b"
  else if c = '\x09' then "\\t"
  else if c = '\x0a' then "\\n"
  else if c = '\x0c' then "\\f"
  else if c = '\x0d' then "\\r"
  else if c.toNat < 32 then "\\u" ++ hex4 c.toNat
  else String.singleton c

/-- JSON rendering of a string value. -/
def jsonQuote (s : String) : String :=
  "\"" ++ String.join (s.data.map jsonEscapeChar) ++ "\""

/-- `JSON.stringify` of one chat message object. -/
def stringifyChatMessage (m : ChatMessage) : String :=
  "\x7b\"role\":" ++ jsonQuote m.role.text ++ ",\"content\":"
    ++ jsonQuote m.content ++ "\x7d"

/-- `JSON.stringify` of the messages array. -/
def stringifyMessages (ms : List ChatMessage) : String :=
  "[" ++ String.intercalate "," (ms.map stringifyChatMessage) ++ "]"

/-- An optional property: `JSON.stringify` omits properties whose value is
`undefined`, so an absent field contributes nothing. -/
def optField (name : String) (v : Option String) : String :=
  match v with
  | none => ""
  | some s => ",\"" ++ name ++ "\":" ++ jsonQuote s

/-- `JSON.stringify(request)`: the present fields of the request, in the
declared property order, and nothing else. -/
def stringifyRequest (r : ChatCompletionRequest) : String :=
  "\x7b\"repo_url\":" ++ jsonQuote r.repo_url
    ++ ",\"messages\":" ++ stringifyMessages r.messages
    ++ optField "filePath" r.filePath
    ++ optField "token" r.token
    ++ optField "type" r.type
    ++ optField "provider" r.provider
    ++ optField "model" r.model
    ++ optField "language" r.language
    ++ optField "excluded_dirs" r.excluded_dirs
    ++ optField "excluded_files" r.excluded_files
    ++ "\x7d"

/-- A socket lifecycle event delivered by the transport to the handlers
installed by `createChatWebSocket`. The error event payload is abstracted
to an identifier. -/
inductive WsEvent where
  | opened
  | messageReceived (data : String)
  | errored (e : Nat)
  | closedEvent
deriving DecidableEq

/-- An observable action of the client component: an outbound send, a
callback invocation, or a diagnostic log line. -/
inductive ClientAction where
  | send (text : String)
  | callOnMessage (text : String)
  | callOnError (e : Nat)
  | callOnClose
  | logLine (s : String)
deriving DecidableEq

/-- Embedding of the four handlers `createChatWebSocket` installs on the
socket: the actions each one performs when its event fires. -/
def createChatWebSocket (request : ChatCompletionRequest) :
    WsEvent → List ClientAction
  | WsEvent.opened =>
    [ClientAction.logLine "WebSocket connection established",
     ClientAction.send (stringifyRequest request)]
  | WsEvent.messageReceived d => [ClientAction.callOnMessage d]
  | WsEvent.errored e =>
    [ClientAction.logLine "WebSocket error:", ClientAction.callOnError e]
  | WsEvent.closedEvent =>
    [ClientAction.logLine "WebSocket connection closed",
     ClientAction.callOnClose]

/-- Replay of a delivered event trace through the installed handlers, in
delivery order. -/
def runEvents (request : ChatCompletionRequest) :
    List WsEvent → List ClientAction
  | [] => []
  | e :: es => createChatWebSocket request e ++ runEvents request es

/-- The outbound message texts among a list of actions. -/
def sentTexts : List ClientAction → List String
  | [] => []
  | ClientAction.send t :: rest => t :: sentTexts rest
  | _ :: rest => sentTexts rest

/-- The `onMessage` invocation payloads among a list of actions. -/
def onMessageCalls : List ClientAction → List String
  | [] => []
  | ClientAction.callOnMessage t :: rest => t :: onMessageCalls rest
  | _ :: rest => onMessageCalls rest

/-- The number of open events in a trace. -/
def countOpened : List WsEvent → Nat
  | [] => 0
  | WsEvent.opened :: rest => countOpened rest + 1
  | _ :: rest => countOpened rest

/-- The raw text payloads of the inbound message events of a trace, in
delivery order. -/
def inboundTexts : List WsEvent → List String
  | [] => []
  | WsEvent.messageReceived d :: rest => d :: inboundTexts rest
  | _ :: rest => inboundTexts rest

/-- The four socket ready states (`WebSocket.CONNECTING` etc.). -/
inductive ReadyState where
  | CONNECTING
  | OPEN
  | CLOSING
  | CLOSED
deriving DecidableEq

/-- The one field of the socket handle `closeWebSocket` reads. -/
structure WebSocketHandle where
  readyState : ReadyState
deriving DecidableEq

/-- A transport action `closeWebSocket` can perform. -/
inductive TransportAction where
  | closeHandshake
deriving DecidableEq

/-- Embedding of `closeWebSocket`: the list of transport actions performed
on the given handle (`none` embeds a `null` argument). The function is
total, so no call raises an error. -/
def closeWebSocket (ws : Option WebSocketHandle) : List TransportAction :=
  match ws with
  | some h =>
    if h.readyState = ReadyState.OPEN then [TransportAction.closeHandshake]
    else []
  | none => []

/-- Appending strings is associative (helper for regrouping the URL
concatenations). -/
theorem stringAppendAssoc (a b c : String) : (a ++ b) ++ c = a ++ (b ++ c) := by
  cases a with
  | mk as =>
    cases b with
    | mk bs =>
      cases c with
      | mk cs =>
        exact congrArg String.mk (List.append_assoc as bs cs)

/-- Claim C1: for every browser context whose page hostname is not a
loopback host, the resolver returns the scheme mapped from the page
protocol (`wss:` for `https:`, else `ws:`), followed by `//`, the page's
own host (including its port), and `/ws/chat`. -/
theorem c1_nonloopback_uses_page_host (loc : WindowLocation)
    (env : Option String) (h : isLoopbackHost loc.hostname = false) :
    getWebSocketUrl (some loc) env =
      (((if loc.protocol = "https:" then "wss:" else "ws:") ++ "//")
        ++ loc.host) ++ "/ws/chat" := by
  simp [getWebSocketUrl, h]

/-- Claim C1 witness: the non-loopback theorem instantiated at a concrete
https page on `example.com:8443`. -/
theorem c1_witness :
    isLoopbackHost "example.com" = false ∧
    getWebSocketUrl (some ⟨"https:", "example.com:8443", "example.com"⟩)
        none = "wss://example.com:8443/ws/chat" := by
  refine ⟨by decide, ?_⟩
  rw [c1_nonloopback_uses_page_host
    ⟨"https:", "example.com:8443", "example.com"⟩ none (by decide)]
  decide

/-- Claim C2: for every browser context whose page hostname is one of
`localhost`, `127.0.0.1`, `::1`, the resolver ignores the page's host and
port and returns the configured base URL, scheme-rewritten, with
`/ws/chat` appended (the right-hand side mentions no field of the page
location). -/
theorem c2_loopback_uses_configured_base (loc : WindowLocation)
    (env : Option String)
    (h : loc.hostname = "localhost" ∨ loc.hostname = "127.0.0.1" ∨
      loc.hostname = "::1") :
    getWebSocketUrl (some loc) env =
      toWebSocketBaseUrl (getServerBaseUrl env) ++ "/ws/chat" := by
  have hb : isLoopbackHost loc.hostname = true := by
    rcases h with h | h | h <;> simp [isLoopbackHost, h]
  simp [getWebSocketUrl, hb]

/-- Claim C2 witness: a loopback page on `localhost:3000` with a
configured base URL resolves to the configured host, not the page's. -/
theorem c2_witness :
    getWebSocketUrl (some ⟨"https:", "localhost:3000", "localhost"⟩)
        (some "https://api.example.com") = "wss://api.example.com/ws/chat" := by
  rw [c2_loopback_uses_configured_base
    ⟨"https:", "localhost:3000", "localhost"⟩
    (some "https://api.example.com") (Or.inl rfl)]
  decide

/-- Claim C3 counterexample: the claim says every base URL whose scheme is
not `https` is rewritten to plain `ws`, but the rewrite leaves
`ftp://api.example.com` unchanged: its result does not start with `ws:`. -/
theorem c3_counterexample :
    startsWithChars "https:".data "ftp://api.example.com".data = false ∧
    toWebSocketBaseUrl "ftp://api.example.com" = "ftp://api.example.com" ∧
    startsWithChars "ws:".data
      (toWebSocketBaseUrl "ftp://api.example.com").data = false := by
  decide

/-- Claim C3 (amended): the rewrite yields scheme `wss` when the original
scheme is `https`, plain `ws` when it is `http`, and returns every other
base URL unchanged; in particular the resolver yields
`wss://api.example.com/ws/chat` for the configuration value
`https://api.example.com`. -/
theorem c3_scheme_rewrite :
    (∀ rest : String, toWebSocketBaseUrl ("https:" ++ rest) = "wss:" ++ rest) ∧
    (∀ rest : String, toWebSocketBaseUrl ("http:" ++ rest) = "ws:" ++ rest) ∧
    (∀ s : String, startsWithChars "https:".data s.data = false →
      startsWithChars "http:".data s.data = false →
      toWebSocketBaseUrl s = s) ∧
    getWebSocketUrl none (some "https://api.example.com") =
      "wss://api.example.com/ws/chat" := by
  refine ⟨?_, ?_, ?_, by decide⟩
  · intro rest
    cases rest with
    | mk l => rfl
  · intro rest
    cases rest with
    | mk l => rfl
  · intro s h1 h2
    simp [toWebSocketBaseUrl, replaceStartHttps, replaceStartHttp, h1, h2]

/-- Claim C3 witness: the unchanged-case of the amended theorem applied to
the concrete base URL `ftp://x`. -/
theorem c3_witness : toWebSocketBaseUrl "ftp://x" = "ftp://x" :=
  c3_scheme_rewrite.2.2.1 "ftp://x" (by decide) (by decide)

/-- Claim C4: with `SERVER_BASE_URL` absent, both the server-side path and
the browser loopback path resolve against the default base URL
`http://localhost:8001` and return `ws://localhost:8001/ws/chat`. -/
theorem c4_default_base_url :
    getWebSocketUrl none none = "ws://localhost:8001/ws/chat" ∧
    ∀ loc : WindowLocation, isLoopbackHost loc.hostname = true →
      getWebSocketUrl (some loc) none = "ws://localhost:8001/ws/chat" := by
  refine ⟨by decide, ?_⟩
  intro loc h
  have step : getWebSocketUrl (some loc) none =
      toWebSocketBaseUrl (getServerBaseUrl none) ++ "/ws/chat" := by
    simp [getWebSocketUrl, h]
  rw [step]
  decide

/-- Claim C4 witness: the loopback branch of the default-base theorem at a
concrete `localhost:3000` page. -/
theorem c4_witness :
    isLoopbackHost "localhost" = true ∧
    getWebSocketUrl (some ⟨"http:", "localhost:3000", "localhost"⟩) none =
      "ws://localhost:8001/ws/chat" :=
  ⟨by decide,
   c4_default_base_url.2 ⟨"http:", "localhost:3000", "localhost"⟩ (by decide)⟩

/-- Claim C5: replaying any delivered event trace, the outbound messages
are exactly one JSON serialization of the supplied request per open event
(so one on the single open of a real socket, and none from any other
event); and on a concrete request the serialization is exactly the JSON
object of the present fields, with no extra fields injected. -/
theorem c5_single_send_on_open :
    (∀ (req : ChatCompletionRequest) (events : List WsEvent),
      sentTexts (runEvents req events) =
        List.replicate (countOpened events) (stringifyRequest req)) ∧
    stringifyRequest ⟨"https://github.com/o/r", [⟨Role.user, "hi"⟩],
        none, none, none, none, none, none, none, none⟩ =
      "\x7b\"repo_url\":\"https://github.com/o/r\",\"messages\":[\x7b\"role\":\"user\",\"content\":\"hi\"\x7d]\x7d" := by
  refine ⟨?_, by decide⟩
  intro req events
  induction events with
  | nil => rfl
  | cons e es ih =>
    cases e <;>
      simp [runEvents, createChatWebSocket, sentTexts, countOpened,
        List.replicate_succ, ih]

/-- Claim C6: replaying any delivered event trace, the `onMessage`
invocations are exactly the raw text payloads of the inbound message
events, once per frame, in delivery order; in particular receiving `foo`
then `bar` after open invokes `onMessage` exactly twice, in order, with
those payloads. -/
theorem c6_onmessage_per_frame :
    (∀ (req : ChatCompletionRequest) (events : List WsEvent),
      onMessageCalls (runEvents req events) = inboundTexts events) ∧
    onMessageCalls (runEvents
        ⟨"r", [], none, none, none, none, none, none, none, none⟩
        [WsEvent.opened, WsEvent.messageReceived "foo",
         WsEvent.messageReceived "bar"]) = ["foo", "bar"] := by
  refine ⟨?_, by decide⟩
  intro req events
  induction events with
  | nil => rfl
  | cons e es ih =>
    cases e <;>
      simp [runEvents, createChatWebSocket, onMessageCalls, inboundTexts, ih]

/-- Claim C7: closing performs no transport action on an absent handle or
on a handle whose state is not open, and it performs exactly the close
handshake when and only when the handle is present and open; the function
is total, so no call raises an error. -/
theorem c7_close_guard :
    closeWebSocket none = [] ∧
    (∀ h : WebSocketHandle, h.readyState ≠ ReadyState.OPEN →
      closeWebSocket (some h) = []) ∧
    (∀ h : WebSocketHandle,
      closeWebSocket (some h) = [TransportAction.closeHandshake] ↔
        h.readyState = ReadyState.OPEN) := by
  refine ⟨rfl, ?_, ?_⟩
  · intro h hne
    simp [closeWebSocket, hne]
  · intro h
    constructor
    · intro he
      by_contra hne
      simp [closeWebSocket, hne] at he
    · intro he
      simp [closeWebSocket, he]

/-- Claim C7 witness: the no-op branch of the close theorem at a
connecting handle and at a closed handle, and the absent-handle case. -/
theorem c7_witness :
    closeWebSocket (some ⟨ReadyState.CONNECTING⟩) = [] ∧
    closeWebSocket (some ⟨ReadyState.CLOSED⟩) = [] ∧
    closeWebSocket none = [] :=
  ⟨c7_close_guard.2.1 ⟨ReadyState.CONNECTING⟩ (by decide),
   c7_close_guard.2.1 ⟨ReadyState.CLOSED⟩ (by decide),
   c7_close_guard.1⟩

/-- Claim C8: in every execution context and for every configuration
value, the resolved URL is some string followed by the fixed suffix
`/ws/chat`. -/
theorem c8_url_ends_with_ws_chat (window : Option WindowLocation)
    (env : Option String) :
    ∃ p : String, getWebSocketUrl window env = p ++ "/ws/chat" := by
  cases window with
  | none => exact ⟨toWebSocketBaseUrl (getServerBaseUrl env), rfl⟩
  | some loc =>
    by_cases h : isLoopbackHost loc.hostname = true
    · exact ⟨toWebSocketBaseUrl (getServerBaseUrl env),
        by simp [getWebSocketUrl, h]⟩
    · exact ⟨((if loc.protocol = "https:" then "wss:" else "ws:") ++ "//")
          ++ loc.host,
        by simp [getWebSocketUrl, h]⟩

/-- Claim C9: an empty `SERVER_BASE_URL` value falls back to the hardcoded
default, exactly as if the value were absent (JavaScript `||` treats the
empty string as falsy). -/
theorem c9_empty_env_falls_back :
    getServerBaseUrl (some "") = "http://localhost:8001" ∧
    getServerBaseUrl (some "") = getServerBaseUrl none :=
  ⟨rfl, rfl⟩

/-- Claim C10: the loopback test is exact, case-sensitive string equality
against `localhost`, `127.0.0.1` and `::1`; `LOCALHOST`, `127.0.0.2` and
`[::1]` are classified non-loopback, and every non-loopback page is
resolved using the page's own host. -/
theorem c10_loopback_exact_match :
    (∀ h : String, isLoopbackHost h = true ↔
      (h = "localhost" ∨ h = "127.0.0.1" ∨ h = "::1")) ∧
    isLoopbackHost "LOCALHOST" = false ∧
    isLoopbackHost "127.0.0.2" = false ∧
    isLoopbackHost "[::1]" = false ∧
    (∀ (loc : WindowLocation) (env : Option String),
      isLoopbackHost loc.hostname = false →
      getWebSocketUrl (some loc) env =
        (((if loc.protocol = "https:" then "wss:" else "ws:") ++ "//")
          ++ loc.host) ++ "/ws/chat") := by
  refine ⟨?_, by decide, by decide, by decide, ?_⟩
  · intro h
    simp [isLoopbackHost, or_assoc]
  · intro loc env hl
    simp [getWebSocketUrl, hl]

/-- Claim C10 witness: the case-variant hostname `LOCALHOST` is
non-loopback, so the resolver uses the page's own host and port. -/
theorem c10_witness :
    isLoopbackHost "LOCALHOST" = false ∧
    getWebSocketUrl (some ⟨"http:", "LOCALHOST:3000", "LOCALHOST"⟩) none =
      "ws://LOCALHOST:3000/ws/chat" := by
  refine ⟨by decide, ?_⟩
  rw [c10_loopback_exact_match.2.2.2.2
    ⟨"http:", "LOCALHOST:3000", "LOCALHOST"⟩ none (by decide)]
  decide
